import Mathlib

/-!
Shallow embedding of the core simulation in `src/ModulationSpectroscopy.py`.

The whole numeric engine lives in `Widget.update` (lines 224-251): it reads
six slider values, builds fixed `np.linspace` grids, defines the lambdas
`absorption`, `laser`, `FMerrorsig` and `TTFMS`, and fills five curves
depending on the selected scheme.  We embed the lambdas as real-valued
functions, NumPy arrays as `List ℝ` with elementwise `map`, `scipy.fftpack.fft`
as the exact complex DFT, and `update` as a pure function from parameters and
scheme to the bundle of curves that `setData` receives.
-/

namespace ModSpec

noncomputable section

open Real

/-- The six slider values read at the top of `Widget.update`
(`gamma`, `fmod1`, `fmod2`, `flaser`, `M1`, `M2`; `fmfmod` starts out as a
copy of `self.w2.x`, i.e. of `fmod1`). -/
structure SimulationParameters where
  gamma : ℝ
  fmod1 : ℝ
  fmod2 : ℝ
  flaser : ℝ
  M1 : ℝ
  M2 : ℝ

/-- The three entries of the scheme combo box `c1`. -/
inductive Scheme where
  | FrequencyModulation
  | TwoToneFrequencyModulation
  | FMandTTFMS
deriving DecidableEq

/-- `np.linspace a b n`: `n` evenly spaced points from `a` to `b` inclusive,
the `i`-th being `a + (b - a) * i / (n - 1)`. -/
def linspace (a b : ℝ) (n : ℕ) : List ℝ :=
  (List.range n).map (fun i : ℕ => a + (b - a) * (i : ℝ) / ((n : ℝ) - 1))

/-- `x = np.linspace(-10000, 10000, 1000)` (line 232). -/
def detuningGrid : List ℝ := linspace (-10000) 10000 1000

/-- `t = np.linspace(0, 1000, 1000)` (line 233). -/
def timeGrid : List ℝ := linspace 0 1000 1000

/-- `absorption = lambda val: 1 - 0.5*np.exp(-(flaser+val)**2/(2*gamma**2))`
(line 235), at a single (scalar) frequency offset. -/
def absorption (p : SimulationParameters) (val : ℝ) : ℝ :=
  1 - 0.5 * Real.exp (-(p.flaser + val) ^ 2 / (2 * p.gamma ^ 2))

/-- The same lambda applied to a NumPy array: elementwise broadcast. -/
def absorptionVec (p : SimulationParameters) (vals : List ℝ) : List ℝ :=
  vals.map (absorption p)

/-- One sample of
`np.cos(flaser*t*np.pi/180)*np.cos(M1*np.sin(fmod1*t*np.pi/180))*np.cos(M2*np.sin(fmod2*t*np.pi/180))`
(line 236) at time `ti`. -/
def laserSample (p : SimulationParameters) (ti : ℝ) : ℝ :=
  Real.cos (p.flaser * ti * Real.pi / 180) *
    Real.cos (p.M1 * Real.sin (p.fmod1 * ti * Real.pi / 180)) *
    Real.cos (p.M2 * Real.sin (p.fmod2 * ti * Real.pi / 180))

/-- `laser = lambda val: (...)` (line 236): the lambda takes an argument
`val` but never uses it — the body ranges over the captured time grid `t`. -/
def laser (p : SimulationParameters) (val : List ℝ) : List ℝ :=
  timeGrid.map (laserSample p)

/-- `FMerrorsig = lambda val: (M1/2)*absorption(val)*(absorption(val-fmfmod)-absorption(val+fmfmod))`
(line 237).  The captured variable `fmfmod` is looked up when the lambda is
called, so it is an explicit parameter here: the `FM and TTFMS` branch
reassigns it before calling the lambda. -/
def FMerrorsig (p : SimulationParameters) (fmfmod val : ℝ) : ℝ :=
  p.M1 / 2 * absorption p val *
    (absorption p (val - fmfmod) - absorption p (val + fmfmod))

/-- `TTFMS = lambda val: (M1/2)*(M2/2)*(absorption(val-fmod1)*absorption(val-fmod2)+absorption(val+fmod1)*absorption(val+fmod2)-2*absorption(val)**2)`
(line 238). -/
def TTFMS (p : SimulationParameters) (val : ℝ) : ℝ :=
  p.M1 / 2 * (p.M2 / 2) *
    (absorption p (val - p.fmod1) * absorption p (val - p.fmod2) +
      absorption p (val + p.fmod1) * absorption p (val + p.fmod2) -
      2 * absorption p val ^ 2)

/-- Entry `k` of the discrete Fourier transform magnitude of a real list,
`abs(fft(c))[k] = |Σ_j c_j · exp(−2πi·j·k/N)|` with `N = c.length`
(`scipy.fftpack.fft` followed by `abs`, line 250). -/
def dftEntry (c : List ℝ) (k : ℕ) : ℝ :=
  Complex.abs (∑ j ∈ Finset.range c.length,
    (c.getD j 0 : ℂ) *
      Complex.exp (-(2 * (Real.pi : ℂ) * Complex.I * j * k) / c.length))

/-- `abs(fft(c))`: the magnitude spectrum, same length as the input. -/
def dft (c : List ℝ) : List ℝ :=
  (List.range c.length).map (dftEntry c)

/-- The five data sequences handed to `setData` in `Widget.update`:
`curve1` (absorption line), `curve2` and `curve2b` (error signals),
`curve3` (spectrum) and `curve4` (time-domain field). -/
structure SimResult where
  absorptionCurve : List ℝ
  errorCurve1 : List ℝ
  errorCurve2 : List ℝ
  spectrumCurve : List ℝ
  timeFieldCurve : List ℝ

/-- `Widget.update` (lines 224-251) as a pure function of the slider values
and the combo-box scheme.  `fmfmod` is initialised to `self.w2.x = fmod1`;
only the `FM and TTFMS` branch reassigns it to `fmod1 - fmod2` before the
`FMerrorsig` lambda is invoked.  Schemes producing a single error curve set
`curve2b` to the one-sample list `[0]`. -/
def update (p : SimulationParameters) (scheme : Scheme) : SimResult :=
  let x := detuningGrid
  let fmfmod := p.fmod1
  let absorptionCurve := absorptionVec p x
  let field := laser p x
  match scheme with
  | Scheme.FrequencyModulation =>
      { absorptionCurve := absorptionCurve
        errorCurve1 := x.map (FMerrorsig p fmfmod)
        errorCurve2 := [0]
        spectrumCurve := dft field
        timeFieldCurve := field }
  | Scheme.TwoToneFrequencyModulation =>
      { absorptionCurve := absorptionCurve
        errorCurve1 := x.map (TTFMS p)
        errorCurve2 := [0]
        spectrumCurve := dft field
        timeFieldCurve := field }
  | Scheme.FMandTTFMS =>
      let fmfmod2 := p.fmod1 - p.fmod2
      { absorptionCurve := absorptionCurve
        errorCurve1 := x.map (FMerrorsig p fmfmod2)
        errorCurve2 := x.map (TTFMS p)
        spectrumCurve := dft field
        timeFieldCurve := field }

/-- A concrete parameter set (γ = 1, f₁ = 5, f₂ = 3, laser at 0, M₁ = M₂ = 1)
used to instantiate theorems with hypotheses. -/
def sampleParams : SimulationParameters :=
  { gamma := 1, fmod1 := 5, fmod2 := 3, flaser := 0, M1 := 1, M2 := 1 }

/-- A parameter set with `gamma = 0`, outside the documented precondition. -/
def zeroGammaParams : SimulationParameters :=
  { gamma := 0, fmod1 := 5, fmod2 := 3, flaser := 70, M1 := 1, M2 := 1 }

/-- Every `linspace` grid has exactly its requested number of points. -/
theorem linspace_length (a b : ℝ) (n : ℕ) : (linspace a b n).length = n := by
  unfold linspace
  rw [List.length_map, List.length_range]

/-- Claim C1 (counterexample): at `lineWidth = 0` the simulation does not
fail — `update` performs no parameter validation and still returns numeric
curves of full length (NumPy evaluates the division by zero to inf/nan
instead of raising), so a run with `gamma = 0` produces a 1000-sample
absorption curve and a 1000-sample error curve, not an error and no curves. -/
theorem C1_counterexample :
    zeroGammaParams.gamma = 0 ∧
    (update zeroGammaParams Scheme.FrequencyModulation).absorptionCurve.length = 1000 ∧
    (update zeroGammaParams Scheme.FrequencyModulation).errorCurve1.length = 1000 ∧
    (update zeroGammaParams Scheme.FrequencyModulation).timeFieldCurve.length = 1000 := by
  refine ⟨rfl, ?_, ?_, ?_⟩ <;>
    simp only [update, absorptionVec, laser, List.length_map, linspace_length,
      detuningGrid, timeGrid]

/-- Claim C1 (amended): `Widget.update` performs no validation of its
parameters and has no error path at all: for every parameter values
(including `lineWidth ≤ 0`) and every scheme it returns numeric curves over
the full 1000-point grids, never an `InvalidParameter` failure. -/
theorem C1_no_validation (p : SimulationParameters) (s : Scheme) :
    (update p s).absorptionCurve.length = 1000 ∧
    (update p s).errorCurve1.length = 1000 ∧
    (update p s).spectrumCurve.length = 1000 ∧
    (update p s).timeFieldCurve.length = 1000 := by
  cases s <;>
    refine ⟨?_, ?_, ?_, ?_⟩ <;>
      simp only [update, absorptionVec, laser, dft, List.length_map,
        List.length_range, linspace_length, detuningGrid, timeGrid]

/-- Claim C2: under the combined `FM and TTFMS` scheme the first error curve
is exactly the `FMerrorsig` sweep with the shift parameter overridden to
`fmod1 - fmod2`, while under the plain `Frequency Modulation` scheme (the
only other scheme that evaluates `FMerrorsig`) the shift parameter stays
`fmod1`: only the combined variant changes it. -/
theorem C2_combined_uses_difference_shift (p : SimulationParameters) :
    (update p Scheme.FMandTTFMS).errorCurve1
        = detuningGrid.map (FMerrorsig p (p.fmod1 - p.fmod2)) ∧
    (update p Scheme.FrequencyModulation).errorCurve1
        = detuningGrid.map (FMerrorsig p p.fmod1) := by
  constructor <;> simp only [update]

/-- Claim C3: for `lineWidth > 0`, `absorption` returns exactly
`T(ω) = 1 − 0.5·exp(−(laserFreq + ω)²/(2·lineWidth²))`, and on an array it
acts elementwise, each element independently, preserving the length. -/
theorem C3_absorption_formula (p : SimulationParameters)
    (hγ : 0 < p.gamma) (ω : ℝ) (xs : List ℝ) :
    absorption p ω
        = 1 - 0.5 * Real.exp (-(p.flaser + ω) ^ 2 / (2 * p.gamma ^ 2)) ∧
    (absorptionVec p xs).length = xs.length ∧
    ∀ i, i < xs.length →
      (absorptionVec p xs).getD i 0 = absorption p (xs.getD i 0) := by
  refine ⟨rfl, by simp [absorptionVec], ?_⟩
  intro i hi
  rw [List.getD_eq_getElem _ _ (by simpa [absorptionVec] using hi),
    List.getD_eq_getElem _ _ hi]
  simp [absorptionVec]

/-- Claim C3 witness: the formula instantiated at the sample parameters and
`ω = 2`. -/
theorem C3_absorption_formula_witness :
    0 < sampleParams.gamma ∧
    absorption sampleParams 2
        = 1 - 0.5 *
            Real.exp (-(sampleParams.flaser + 2) ^ 2 / (2 * sampleParams.gamma ^ 2)) :=
  ⟨by norm_num [sampleParams],
   (C3_absorption_formula sampleParams (by norm_num [sampleParams]) 2 []).1⟩

/-- Claim C4: under the `Frequency Modulation` scheme the error curve is the
sweep of `errorFM(ω) = (M1/2)·T(ω)·[T(ω − fmod1) − T(ω + fmod1)]` over the
detuning grid, with `T` the absorption model. -/
theorem C4_errorFM_formula (p : SimulationParameters) :
    (update p Scheme.FrequencyModulation).errorCurve1
        = detuningGrid.map (fun ω =>
            p.M1 / 2 * absorption p ω *
              (absorption p (ω - p.fmod1) - absorption p (ω + p.fmod1))) := by
  simp only [update]
  congr 1

/-- Claim C5: under the `Two Tone Frequency Modulation` scheme the error
curve is the sweep of
`errorTTFMS(ω) = (M1/2)·(M2/2)·[T(ω−f₁)·T(ω−f₂) + T(ω+f₁)·T(ω+f₂) − 2·T(ω)²]`
over the detuning grid. -/
theorem C5_errorTTFMS_formula (p : SimulationParameters) :
    (update p Scheme.TwoToneFrequencyModulation).errorCurve1
        = detuningGrid.map (fun ω =>
            p.M1 / 2 * (p.M2 / 2) *
              (absorption p (ω - p.fmod1) * absorption p (ω - p.fmod2) +
                absorption p (ω + p.fmod1) * absorption p (ω + p.fmod2) -
                2 * absorption p ω ^ 2)) := by
  simp only [update]
  congr 1

/-- Claim C6: for every scheme the time-domain trace is the field
`E(t) = cos(flaser·t·π/180)·cos(M1·sin(fmod1·t·π/180))·cos(M2·sin(fmod2·t·π/180))`
evaluated at every sample of the 1000-point time grid, every angular argument
scaled by π/180. -/
theorem C6_field_formula (p : SimulationParameters) (s : Scheme) :
    (update p s).timeFieldCurve
        = timeGrid.map (fun ti =>
            Real.cos (p.flaser * ti * Real.pi / 180) *
              Real.cos (p.M1 * Real.sin (p.fmod1 * ti * Real.pi / 180)) *
              Real.cos (p.M2 * Real.sin (p.fmod2 * ti * Real.pi / 180))) := by
  cases s <;> (simp only [update, laser]; congr 1)

/-- Claim C7: with the laser at zero detuning offset (`flaser = 0`) and
positive `fmod1`, `M1` and `gamma`, the single-tone error signal is
antisymmetric about `ω = 0`: `errorFM(ω) = −errorFM(−ω)`. -/
theorem C7_errorFM_antisymmetric (p : SimulationParameters)
    (h0 : p.flaser = 0) (hf : 0 < p.fmod1) (hM : 0 < p.M1) (hγ : 0 < p.gamma)
    (ω : ℝ) :
    FMerrorsig p p.fmod1 ω = - FMerrorsig p p.fmod1 (-ω) := by
  have habs : ∀ u : ℝ, absorption p (-u) = absorption p u := by
    intro u
    simp only [absorption, h0, zero_add, neg_sq]
  have e1 : -ω - p.fmod1 = -(ω + p.fmod1) := by ring
  have e2 : -ω + p.fmod1 = -(ω - p.fmod1) := by ring
  unfold FMerrorsig
  rw [e1, e2, habs, habs, habs]
  ring

/-- Claim C7 witness: antisymmetry instantiated at the sample parameters
(`flaser = 0`, `fmod1 = 5 > 0`, `M1 = 1 > 0`, `gamma = 1 > 0`) and `ω = 2`. -/
theorem C7_errorFM_antisymmetric_witness :
    sampleParams.flaser = 0 ∧ 0 < sampleParams.fmod1 ∧
    0 < sampleParams.M1 ∧ 0 < sampleParams.gamma ∧
    FMerrorsig sampleParams sampleParams.fmod1 2
      = - FMerrorsig sampleParams sampleParams.fmod1 (-2) :=
  ⟨rfl, by norm_num [sampleParams], by norm_num [sampleParams],
   by norm_num [sampleParams],
   C7_errorFM_antisymmetric sampleParams rfl (by norm_num [sampleParams])
     (by norm_num [sampleParams]) (by norm_num [sampleParams]) 2⟩

/-- Claim C8: the `Frequency Modulation` and `Two Tone Frequency Modulation`
branches report the unused second error curve as the one-sample list `[0]`,
not as the empty list. -/
theorem C8_sentinel_second_curve (p : SimulationParameters) :
    (update p Scheme.FrequencyModulation).errorCurve2 = [0] ∧
    (update p Scheme.TwoToneFrequencyModulation).errorCurve2 = [0] ∧
    (update p Scheme.FrequencyModulation).errorCurve2 ≠ [] := by
  refine ⟨by simp only [update], by simp only [update], ?_⟩
  simp only [update]
  simp

/-- Claim C9: the magnitude spectrum of a time-domain list of length `N` has
length `N`, its entry `k` is `|Σ_j E_j · exp(−2πi·j·k/N)|`, and every entry
is non-negative. -/
theorem C9_dft_spectrum (c : List ℝ) :
    (dft c).length = c.length ∧
    (∀ k, k < c.length → (dft c).getD k 0
        = Complex.abs (∑ j ∈ Finset.range c.length,
            (c.getD j 0 : ℂ) *
              Complex.exp (-(2 * (Real.pi : ℂ) * Complex.I * j * k) / c.length))) ∧
    (∀ y ∈ dft c, 0 ≤ y) := by
  refine ⟨by simp [dft], ?_, ?_⟩
  · intro k hk
    rw [List.getD_eq_getElem _ _ (by simpa [dft] using hk)]
    simp [dft, dftEntry]
  · intro y hy
    simp only [dft, List.mem_map] at hy
    obtain ⟨k, _, rfl⟩ := hy
    exact Complex.abs.nonneg _

/-- Claim C9 witness: the spectrum contract instantiated at the two-sample
list `[1, 0]` and entry `k = 0`. -/
theorem C9_dft_spectrum_witness :
    (dft [1, 0]).length = ([1, 0] : List ℝ).length ∧
    (dft [1, 0]).getD 0 0
      = Complex.abs (∑ j ∈ Finset.range ([1, 0] : List ℝ).length,
          (([1, 0] : List ℝ).getD j 0 : ℂ) *
            Complex.exp (-(2 * (Real.pi : ℂ) * Complex.I * j * ((0 : ℕ) : ℂ)) /
              ([1, 0] : List ℝ).length)) :=
  ⟨(C9_dft_spectrum [1, 0]).1,
   (C9_dft_spectrum [1, 0]).2.1 0 (by norm_num)⟩

/-- Claim C10: the `laser` lambda ignores the argument it is invoked with —
any two inputs give the same field — so even though `update` passes the
detuning array `x`, the time-domain and spectrum traces are computed over the
fixed 1000-point time grid. -/
theorem C10_laser_ignores_argument (p : SimulationParameters)
    (a b : List ℝ) (s : Scheme) :
    laser p a = laser p b ∧
    timeGrid.length = 1000 ∧
    (update p s).timeFieldCurve = timeGrid.map (laserSample p) ∧
    (update p s).spectrumCurve = dft (timeGrid.map (laserSample p)) := by
  refine ⟨rfl, linspace_length 0 1000 1000, ?_, ?_⟩ <;>
    cases s <;> simp only [update, laser]

end

end ModSpec
